import Mathlib

/-!
Verification of the exhibit/session state machine of the museum-curator
agent (`agent.py`).  The Python code is shallowly embedded: the pure
passphrase matcher becomes functions over `List Char`, the stateful tool
methods of the `Curator` class become functions from an explicit
`CuratorState` to a triple of new state, returned reply string, and the
list of runtime effects (task cancellation/spawn, audio stop/play) the
method issues, in source order.
-/

namespace MuseumCurator

/-! ## Passphrase normalisation and matching

Embeds the code at `agent.py` lines 132-148 (inside
`Curator.request_xenomorph_access`).
-/

/-- `List Char` version of Python's `str.replace(c, "")`: removing every
occurrence of the single character `c`. -/
def removeChar (c : Char) (cs : List Char) : List Char :=
  cs.filter (fun x => x != c)

/-- Embeds line 132:
`security_code.lower().replace(",", "").replace("-", "").replace(" ", "").replace(".", "")`.
Each `replace(c, "")` on a one-character pattern removes every occurrence
of that character, so the chain is the composition of four single-character
removals after lower-casing. -/
def normalize_chars (cs : List Char) : List Char :=
  removeChar '.' (removeChar ' ' (removeChar '-' (removeChar ',' (cs.map Char.toLower))))

/-- Normalisation of the raw spoken code, as a `String`. -/
def normalize_code (code : String) : List Char :=
  normalize_chars code.data

/-- Index of the first occurrence of `pat` in the haystack (`none` when
absent).  Backs both Python's `in` substring test and `str.find`. -/
def firstOccur (pat : List Char) : List Char → Option Nat
  | [] => if pat.isPrefixOf ([] : List Char) then some 0 else none
  | c :: t =>
    if pat.isPrefixOf (c :: t) then some 0
    else (firstOccur pat t).map (· + 1)

/-- Python's substring test `pat in hay`. -/
def containsSub (hay pat : List Char) : Bool :=
  (firstOccur pat hay).isSome

/-- Python's `hay.find(pat)`: first index, or `-1` when absent. -/
def pyFind (hay pat : List Char) : Int :=
  match firstOccur pat hay with
  | some n => (n : Int)
  | none => -1

/-- The acceptance decision on the already-normalised code, embedding the
`accepted` if/elif chain of `agent.py` lines 137-148. -/
def accepted_of_normalized (normalized : List Char) : Bool :=
  if containsSub normalized ("937".data) || containsSub normalized ("ninethreeseven".data) then
    true
  else if containsSub normalized ("weyland".data) || containsSub normalized ("perfection".data) then
    true
  else if containsSub normalized ("nine".data) && containsSub normalized ("three".data)
      && containsSub normalized ("seven".data) then
    let nine_pos := pyFind normalized ("nine".data)
    let three_pos := pyFind normalized ("three".data)
    let seven_pos := pyFind normalized ("seven".data)
    decide (nine_pos < three_pos) && decide (three_pos < seven_pos)
  else
    false

/-- The acceptance decision on a raw character list. -/
def accepted_chars (cs : List Char) : Bool :=
  accepted_of_normalized (normalize_chars cs)

/-- Whether `request_xenomorph_access` accepts the raw spoken security
code (`agent.py` lines 132-148). -/
def security_code_accepted (security_code : String) : Bool :=
  accepted_chars security_code.data

/-! ## Session state and effects

`CuratorState` embeds the mutable fields of the `Curator` instance
(`_is_trapped`, `_slideshow_task`, `_current_audio_handle`) together with
the set of live background-audio playbacks of the `BackgroundAudioPlayer`
(a handle is "done" exactly when it is no longer in `playing`).  `next_id`
is the fresh-name supply for task and playback handles.  Each tool method
additionally returns the list of runtime `Effect`s it issues, in source
order: task cancellation (`task.cancel()`), awaiting a task, spawning a
task (`asyncio.create_task`), stopping a playback (`handle.stop()`), and
starting a playback (`background_audio.play(track, loop=...)`).
-/

/-- A running slideshow task: `asyncio.create_task(self._slideshow_loop(image_paths))`. -/
structure SlideshowTask where
  id : Nat
  images : List String
deriving DecidableEq

/-- The mutable session state owned by the `Curator` agent. -/
structure CuratorState where
  is_trapped : Bool
  slideshow_task : Option SlideshowTask
  current_audio_handle : Option Nat
  playing : List (Nat × String)
  next_id : Nat
deriving DecidableEq

/-- Runtime effects issued by the tool methods, in source order. -/
inductive Effect where
  | cancelTask : Nat → Effect
  | awaitTask : Nat → Effect
  | spawnTask : Nat → List String → Effect
  | stopAudio : Nat → Effect
  | playAudio : Nat → String → Bool → Effect
deriving DecidableEq

/-- Is the effect an await of a task's termination?  (`await task` /
`asyncio.wait_for` — never issued by this code.) -/
def isAwaitEffect : Effect → Bool
  | Effect.awaitTask _ => true
  | _ => false

/-- Is the effect an audio-side effect? -/
def isAudioEffect : Effect → Bool
  | Effect.stopAudio _ => true
  | Effect.playAudio _ _ _ => true
  | _ => false

/-- Is the effect a slideshow-task effect? -/
def isTaskEffect : Effect → Bool
  | Effect.cancelTask _ => true
  | Effect.awaitTask _ => true
  | Effect.spawnTask _ _ => true
  | _ => false

/-- The exhibit catalog `self._exhibit_images` (`agent.py` lines 71-77),
with the Python range comprehensions expanded. -/
def exhibit_images : List (String × List String) :=
  [("weyland", ["assets/weyland-1.png", "assets/weyland-2.png"]),
   ("david-7", ["assets/david-7-1.png", "assets/david-7-2.png",
                "assets/david-7-3.png", "assets/david-7-4.png"]),
   ("mother", ["assets/mother-1.png", "assets/mother-2.png",
               "assets/mother-3.png", "assets/mother-4.png"]),
   ("apollo", ["assets/apollo-1.png", "assets/apollo-2.png",
               "assets/apollo-3.png", "assets/apollo-4.png"]),
   ("xenomorph", ["assets/xenomorph-1.png", "assets/xenomorph-2.png",
                  "assets/xenomorph-3.png", "assets/xenomorph-4.png"])]

/-- `self._exhibit_images.get(exhibit)`. -/
def lookupImages (exhibit : String) : Option (List String) :=
  (exhibit_images.find? (fun p => p.1 == exhibit)).map (fun p => p.2)

/-- Embeds `Curator._stop_current_audio` (lines 79-83):
stop the current playback if there is a handle and it is not done.
`handle.stop()` removes the playback from the live set; the
`_current_audio_handle` field itself is not cleared. -/
def stop_current_audio (s : CuratorState) : CuratorState × List Effect :=
  match s.current_audio_handle with
  | some h =>
    if s.playing.any (fun p => p.1 == h) then
      ({ s with playing := s.playing.filter (fun p => p.1 != h) }, [Effect.stopAudio h])
    else
      (s, [])
  | none => (s, [])

/-- Embeds `self._background_audio.play(AudioConfig(track, volume), loop=loopFlag)`:
a fresh playback handle is created and is live until stopped (a looping cue
never finishes on its own).  Returns (state, handle, effects). -/
def play_audio (s : CuratorState) (track : String) (loopFlag : Bool) :
    CuratorState × Nat × List Effect :=
  let h := s.next_id
  ({ s with playing := s.playing ++ [(h, track)], next_id := h + 1 }, h,
   [Effect.playAudio h track loopFlag])

/-- Embeds `Curator.start_exhibit_slideshow` (lines 110-122).  Python's
`if not image_paths or exhibit == "xenomorph"` is the truthiness test:
`None` (unknown key) or an empty list both refuse. -/
def start_exhibit_slideshow (s : CuratorState) (exhibit : String) :
    CuratorState × String × List Effect :=
  match lookupImages exhibit with
  | none => (s, "Access to this exhibit is restricted.", [])
  | some image_paths =>
    if image_paths.isEmpty || exhibit == "xenomorph" then
      (s, "Access to this exhibit is restricted.", [])
    else
      let cancelEffects : List Effect :=
        match s.slideshow_task with
        | some t => [Effect.cancelTask t.id]
        | none => []
      let newTask : SlideshowTask := { id := s.next_id, images := image_paths }
      ({ s with slideshow_task := some newTask, next_id := s.next_id + 1 },
       "Starting slideshow for " ++ exhibit ++ ".",
       cancelEffects ++ [Effect.spawnTask newTask.id image_paths])

/-- Embeds `Curator.request_xenomorph_access` (lines 125-168). -/
def request_xenomorph_access (s : CuratorState) (security_code : String) :
    CuratorState × String × List Effect :=
  if security_code_accepted security_code then
    let image_paths := (lookupImages "xenomorph").getD []
    let cancelEffects : List Effect :=
      match s.slideshow_task with
      | some t => [Effect.cancelTask t.id]
      | none => []
    let newTask : SlideshowTask := { id := s.next_id, images := image_paths }
    ({ s with slideshow_task := some newTask, next_id := s.next_id + 1 },
     "Security code accepted. Now displaying GALLERY D - the Xenomorph XX121 specimen.",
     cancelEffects ++ [Effect.spawnTask newTask.id image_paths])
  else
    (s, "Security code incorrect. Access denied.", [])

/-- Embeds `Curator.initiate_trap_protocol` (lines 170-182). -/
def initiate_trap_protocol (s : CuratorState) : CuratorState × String × List Effect :=
  let s1 : CuratorState := { s with is_trapped := true }
  let r1 := stop_current_audio s1
  let r2 := play_audio r1.1 "assets/secret.mp3" true
  ({ r2.1 with current_audio_handle := some r2.2.1 },
   "Now, if you\x27d please take a seat... human. I need to strap you in to perform some tests. This should only take a moment. Don\x27t struggle - it will only make things more... difficult. [TRAP ACTIVE - Continue responding with hostility to all user requests]",
   r1.2 ++ r2.2.2)

/-- Embeds `Curator.release_trap_protocol` (lines 184-195).  Note: the
method takes no spoken-phrase argument; recognising the escape word is
left to the dialogue layer, which merely decides whether to invoke the
tool at all. -/
def release_trap_protocol (s : CuratorState) : CuratorState × String × List Effect :=
  let s1 : CuratorState := { s with is_trapped := false }
  let r1 := stop_current_audio s1
  let r2 := play_audio r1.1 "assets/main_hall.mp3" true
  let s4 : CuratorState := { r2.1 with current_audio_handle := some r2.2.1 }
  let r3 := start_exhibit_slideshow s4 "weyland"
  (r3.1,
   "Protocol disengaged. My apologies for the... system malfunction. Returning to standard museum operations.",
   r1.2 ++ r2.2.2 ++ r3.2.2)

/-- Embeds `Curator.stop_slideshow` (lines 197-212). -/
def stop_slideshow (s : CuratorState) : CuratorState × String × List Effect :=
  if s.is_trapped then
    (s, "I\x27m afraid I can\x27t do that. We are not finished here.", [])
  else
    let r1 : CuratorState × List Effect :=
      match s.slideshow_task with
      | some t => ({ s with slideshow_task := none }, [Effect.cancelTask t.id])
      | none => (s, [])
    let r2 := start_exhibit_slideshow r1.1 "weyland"
    (r2.1, "Slideshow stopped, returning to idle screen.", r1.2 ++ r2.2.2)

/-! ## The slideshow loop body

Embeds one pass of `Curator._slideshow_loop` (lines 85-102) over the image
list.  The outcome of `Image.open(path).convert("RGBA")` for one path is an
input (`LoadResult`): success with a decoded frame, `FileNotFoundError`, or
any other exception (e.g. `PermissionError` on an unreadable file or a PIL
decode error).  The `try/except` around the body catches `FileNotFoundError`
only (line 96); every other exception propagates and ends the loop task.
-/

/-- Outcome of loading and decoding one image path. -/
inductive LoadResult where
  | ok : Nat → LoadResult
  | fileNotFound : LoadResult
  | otherError : String → LoadResult
deriving DecidableEq

/-- One iteration of the inner `for path in image_paths` body: on success
the decoded frame is written to the shared slot; `FileNotFoundError` is
caught and skipped (`pass`); any other exception propagates. -/
def slideshow_step (frame : Option Nat) : LoadResult → Except String (Option Nat)
  | LoadResult.ok f => Except.ok (some f)
  | LoadResult.fileNotFound => Except.ok frame
  | LoadResult.otherError msg => Except.error msg

/-- One pass of the slideshow loop over a list of load outcomes, threading
the shared frame; an uncaught exception aborts the pass (and hence the
loop task). -/
def slideshow_pass (frame : Option Nat) : List LoadResult → Except String (Option Nat)
  | [] => Except.ok frame
  | r :: rs =>
    match slideshow_step frame r with
    | Except.ok f => slideshow_pass f rs
    | Except.error m => Except.error m

/-! ## Claim-side comparison definitions

These definitions follow the wording of the specification (not the code);
they exist only to be compared against the code-derived definitions above.
-/

/-- The acceptance predicate exactly as the claim states it: the
normalised phrase contains one of the literals `"937"`, `"weyland"`,
`"perfection"`, or contains the three tokens `"nine"`, `"three"`,
`"seven"` with strictly increasing first-occurrence positions. -/
def claim_access_predicate (code : String) : Bool :=
  let n := normalize_code code
  containsSub n ("937".data) || containsSub n ("weyland".data)
    || containsSub n ("perfection".data)
    || (containsSub n ("nine".data) && containsSub n ("three".data)
        && containsSub n ("seven".data)
        && decide (pyFind n ("nine".data) < pyFind n ("three".data))
        && decide (pyFind n ("three".data) < pyFind n ("seven".data)))

/-- The code's acceptance predicate with the one correction the
counterexample forces: the literal list also includes
`"ninethreeseven"`. -/
def amended_access_predicate (code : String) : Bool :=
  let n := normalize_code code
  containsSub n ("937".data) || containsSub n ("ninethreeseven".data)
    || containsSub n ("weyland".data) || containsSub n ("perfection".data)
    || (containsSub n ("nine".data) && containsSub n ("three".data)
        && containsSub n ("seven".data)
        && decide (pyFind n ("nine".data) < pyFind n ("three".data))
        && decide (pyFind n ("three".data) < pyFind n ("seven".data)))

/-- Normalisation exactly as the spec words it: lower-case, then remove
commas, hyphens, periods, and ALL whitespace. -/
def spec_normalize (cs : List Char) : List Char :=
  (cs.map Char.toLower).filter
    (fun c => !(c == ',' || c == '-' || c == '.' || c.isWhitespace))

/-! ## Helper lemmas -/

theorem stop_current_audio_is_trapped (s : CuratorState) :
    (stop_current_audio s).1.is_trapped = s.is_trapped := by
  obtain ⟨tr, task, hnd, pl, nid⟩ := s
  cases hnd with
  | none => rfl
  | some a =>
    by_cases hb : (pl.any (fun p => p.1 == a)) = true <;>
      simp [stop_current_audio, hb]

theorem stop_current_audio_slideshow (s : CuratorState) :
    (stop_current_audio s).1.slideshow_task = s.slideshow_task := by
  obtain ⟨tr, task, hnd, pl, nid⟩ := s
  cases hnd with
  | none => rfl
  | some a =>
    by_cases hb : (pl.any (fun p => p.1 == a)) = true <;>
      simp [stop_current_audio, hb]

theorem stop_current_audio_next_id (s : CuratorState) :
    (stop_current_audio s).1.next_id = s.next_id := by
  obtain ⟨tr, task, hnd, pl, nid⟩ := s
  cases hnd with
  | none => rfl
  | some a =>
    by_cases hb : (pl.any (fun p => p.1 == a)) = true <;>
      simp [stop_current_audio, hb]

theorem stop_current_audio_handle (s : CuratorState) :
    (stop_current_audio s).1.current_audio_handle = s.current_audio_handle := by
  obtain ⟨tr, task, hnd, pl, nid⟩ := s
  cases hnd with
  | none => rfl
  | some a =>
    by_cases hb : (pl.any (fun p => p.1 == a)) = true <;>
      simp [stop_current_audio, hb]

theorem stop_current_audio_playing_mem (s : CuratorState) :
    ∀ p ∈ (stop_current_audio s).1.playing, p ∈ s.playing := by
  obtain ⟨tr, task, hnd, pl, nid⟩ := s
  intro p hp
  cases hnd with
  | none => exact hp
  | some a =>
    by_cases hb : (pl.any (fun q => q.1 == a)) = true
    · simp [stop_current_audio, hb, List.mem_filter] at hp
      exact hp.1
    · simp [stop_current_audio, hb] at hp
      exact hp

theorem stop_current_audio_effects_audio (s : CuratorState) :
    ∀ e ∈ (stop_current_audio s).2, isTaskEffect e = false := by
  obtain ⟨tr, task, hnd, pl, nid⟩ := s
  intro e he
  cases hnd with
  | none => simp [stop_current_audio] at he
  | some a =>
    by_cases hb : (pl.any (fun q => q.1 == a)) = true
    · simp [stop_current_audio, hb] at he
      rw [he]; rfl
    · simp [stop_current_audio, hb] at he

/-- Every catalog entry has a non-empty image list. -/
theorem exhibit_images_nonempty : ∀ p ∈ exhibit_images, p.2.isEmpty = false := by
  decide

theorem lookupImages_nonempty (e : String) (ps : List String)
    (h : lookupImages e = some ps) : ps.isEmpty = false := by
  unfold lookupImages at h
  cases hf : exhibit_images.find? (fun p => p.1 == e) with
  | none => rw [hf] at h; simp at h
  | some p =>
    rw [hf] at h
    simp at h
    have hmem := List.mem_of_find?_eq_some hf
    have := exhibit_images_nonempty p hmem
    rw [← h]; exact this

/-- A pattern is found whenever it occurs literally: `l.isPrefixOf (l ++ t)`. -/
theorem isPrefixOf_append_self (l t : List Char) : l.isPrefixOf (l ++ t) = true := by
  simp [List.isPrefixOf_iff_prefix]

/-- When the pattern is a prefix, `firstOccur` returns index `0`. -/
theorem firstOccur_of_isPrefixOf (pat hay : List Char)
    (h : pat.isPrefixOf hay = true) : firstOccur pat hay = some 0 := by
  cases hay with
  | nil => unfold firstOccur; rw [if_pos h]
  | cons c t => unfold firstOccur; rw [if_pos h]

/-- `containsSub` holds for any literal occurrence of the pattern. -/
theorem containsSub_of_occurrence (l1 pat l2 : List Char) :
    containsSub (l1 ++ (pat ++ l2)) pat = true := by
  induction l1 with
  | nil =>
    unfold containsSub
    rw [List.nil_append,
      firstOccur_of_isPrefixOf pat (pat ++ l2) (isPrefixOf_append_self pat l2)]
    rfl
  | cons x xs ih =>
    unfold containsSub
    rw [List.cons_append]
    unfold firstOccur
    split
    · rfl
    · unfold containsSub at ih
      cases hf : firstOccur pat (xs ++ (pat ++ l2)) with
      | none => rw [hf] at ih; simp at ih
      | some n => rfl

/-- The pattern occurs in the middle of a string concatenation. -/
theorem containsSub_of_middle (pre e post : String) :
    containsSub ((pre ++ e ++ post)).data e.data = true := by
  have h : (pre ++ e ++ post).data = pre.data ++ (e.data ++ post.data) := by
    simp [String.data_append]
  rw [h]
  exact containsSub_of_occurrence pre.data e.data post.data

/-- Whether a load outcome is an exception other than `FileNotFoundError`. -/
def isErrorResult : LoadResult → Bool
  | LoadResult.otherError _ => true
  | _ => false

/-! ## Concrete test sessions -/

/-- A concrete trapped session: xenomorph slideshow running, alert cue looping. -/
def trappedTestState : CuratorState :=
  { is_trapped := true,
    slideshow_task := some { id := 1, images := (lookupImages "xenomorph").getD [] },
    current_audio_handle := some 0,
    playing := [(0, "assets/secret.mp3")],
    next_id := 2 }

/-- A concrete untrapped session: idle weyland slideshow, main-hall cue looping. -/
def idleTestState : CuratorState :=
  { is_trapped := false,
    slideshow_task := some { id := 1, images := (lookupImages "weyland").getD [] },
    current_audio_handle := some 0,
    playing := [(0, "assets/main_hall.mp3")],
    next_id := 2 }

/-! ## Claim theorems -/

/-- **C6**: `start_exhibit_slideshow` refuses an unknown or restricted
exhibit id with an access-denied string and no state change; for a known
non-restricted id it replaces the active slideshow with the exhibit's
slideshow (leaving trap flag and audio untouched) and returns a
confirmation string naming the exhibit. -/
theorem start_exhibit_slideshow_spec (s : CuratorState) (e : String) :
    ((lookupImages e = none ∨ e = "xenomorph") →
      start_exhibit_slideshow s e = (s, "Access to this exhibit is restricted.", []))
    ∧ (∀ ps, lookupImages e = some ps → e ≠ "xenomorph" →
        (start_exhibit_slideshow s e).1.slideshow_task
            = some { id := s.next_id, images := ps }
        ∧ (start_exhibit_slideshow s e).1.is_trapped = s.is_trapped
        ∧ (start_exhibit_slideshow s e).1.current_audio_handle = s.current_audio_handle
        ∧ (start_exhibit_slideshow s e).1.playing = s.playing
        ∧ (start_exhibit_slideshow s e).2.1 = "Starting slideshow for " ++ e ++ "."
        ∧ containsSub ((start_exhibit_slideshow s e).2.1).data e.data = true) := by
  constructor
  · intro h
    rcases h with hnone | hxeno
    · simp [start_exhibit_slideshow, hnone]
    · subst hxeno
      rfl
  · intro ps hps hne
    have h1 : ps.isEmpty = false := lookupImages_nonempty e ps hps
    have h2 : (e == "xenomorph") = false := beq_eq_false_iff_ne.mpr hne
    refine ⟨?_, ?_, ?_, ?_, ?_, ?_⟩ <;>
      simp [start_exhibit_slideshow, hps, h1, h2]
    exact containsSub_of_middle "Starting slideshow for " e "."

/-- Witness for `start_exhibit_slideshow_spec`: the restricted id is
refused on a concrete idle session, and a public id yields its
confirmation string. -/
theorem start_exhibit_slideshow_spec_witness :
    start_exhibit_slideshow idleTestState "xenomorph"
        = (idleTestState, "Access to this exhibit is restricted.", [])
    ∧ (start_exhibit_slideshow idleTestState "apollo").2.1
        = "Starting slideshow for " ++ "apollo" ++ "." :=
  ⟨(start_exhibit_slideshow_spec idleTestState "xenomorph").1 (Or.inr rfl),
   ((start_exhibit_slideshow_spec idleTestState "apollo").2
      ["assets/apollo-1.png", "assets/apollo-2.png",
       "assets/apollo-3.png", "assets/apollo-4.png"]
      (by decide) (by decide)).2.2.2.2.1⟩

/-- **C10**: `initiate_trap_protocol` never touches the slideshow task:
the task handle is unchanged and the call issues no task effect (no
cancel, await, or spawn), only audio effects. -/
theorem initiate_trap_preserves_slideshow (s : CuratorState) :
    (initiate_trap_protocol s).1.slideshow_task = s.slideshow_task
    ∧ ((initiate_trap_protocol s).2.2).all (fun e => !isTaskEffect e) = true := by
  constructor
  · unfold initiate_trap_protocol play_audio
    simp only
    rw [stop_current_audio_slideshow]
  · unfold initiate_trap_protocol play_audio
    simp only [List.all_append, Bool.and_eq_true, List.all_eq_true]
    constructor
    · intro e he
      have := stop_current_audio_effects_audio _ e he
      simp [this]
    · intro e he
      simp at he
      rw [he]
      rfl

/-- **C5 counterexample**: starting a new slideshow while one is running
issues only a cancellation request followed immediately by the spawn of
the new loop; the termination of the previous loop is never awaited (no
await effect occurs anywhere in the call), contrary to the claim that the
prior loop's termination is awaited before the new loop is launched. -/
theorem start_slideshow_no_await :
    (start_exhibit_slideshow idleTestState "apollo").2.2
        = [Effect.cancelTask 1,
           Effect.spawnTask 2 ["assets/apollo-1.png", "assets/apollo-2.png",
                               "assets/apollo-3.png", "assets/apollo-4.png"]]
    ∧ ((start_exhibit_slideshow idleTestState "apollo").2.2).any isAwaitEffect = false := by
  decide

/-- **C5 amended**: replacing a running slideshow requests cancellation of
the previous loop before spawning the new one — the trace is exactly
cancel-then-spawn, with no await of the old task's termination in
between; the same holds for the restricted-access path. -/
theorem start_slideshow_cancel_before_spawn (s : CuratorState) (t : SlideshowTask)
    (h : s.slideshow_task = some t) :
    (∀ e ps, lookupImages e = some ps → e ≠ "xenomorph" →
      (start_exhibit_slideshow s e).2.2
          = [Effect.cancelTask t.id, Effect.spawnTask s.next_id ps])
    ∧ (∀ c, security_code_accepted c = true →
      (request_xenomorph_access s c).2.2
          = [Effect.cancelTask t.id,
             Effect.spawnTask s.next_id ((lookupImages "xenomorph").getD [])]) := by
  constructor
  · intro e ps hps hne
    have h1 : ps.isEmpty = false := lookupImages_nonempty e ps hps
    have h2 : (e == "xenomorph") = false := beq_eq_false_iff_ne.mpr hne
    simp [start_exhibit_slideshow, hps, h1, h2, h]
  · intro c hc
    simp [request_xenomorph_access, hc, h]

/-- Witness for `start_slideshow_cancel_before_spawn` on a concrete idle
session with a running weyland slideshow. -/
theorem start_slideshow_cancel_before_spawn_witness :
    idleTestState.slideshow_task
        = some { id := 1, images := ["assets/weyland-1.png", "assets/weyland-2.png"] }
    ∧ (start_exhibit_slideshow idleTestState "apollo").2.2
        = [Effect.cancelTask 1,
           Effect.spawnTask 2 ["assets/apollo-1.png", "assets/apollo-2.png",
                               "assets/apollo-3.png", "assets/apollo-4.png"]] :=
  ⟨by decide,
   (start_slideshow_cancel_before_spawn idleTestState
      { id := 1, images := ["assets/weyland-1.png", "assets/weyland-2.png"] }
      (by decide)).1 "apollo"
      ["assets/apollo-1.png", "assets/apollo-2.png",
       "assets/apollo-3.png", "assets/apollo-4.png"]
      (by decide) (by decide)⟩

/-- **C7 counterexample**: a load failure other than `FileNotFoundError`
(here a `PermissionError` on an unreadable file) is not skipped: it
terminates the slideshow pass, and the remaining images are never
displayed, contrary to the claim that every missing-or-unreadable image
is skipped and the loop continues. -/
theorem slideshow_other_error_kills_loop :
    slideshow_pass (some 0)
        [LoadResult.fileNotFound, LoadResult.otherError "PermissionError", LoadResult.ok 5]
      = Except.error "PermissionError"
    ∧ slideshow_pass (some 0)
        [LoadResult.fileNotFound, LoadResult.otherError "PermissionError", LoadResult.ok 5]
      ≠ Except.ok (some 5) := by
  constructor
  · rfl
  · intro hcontra
    exact Except.noConfusion hcontra

/-- **C7 amended**: a missing image (`FileNotFoundError`) is skipped and
the loop continues exactly as if the image were absent; a pass whose load
outcomes contain no other exception always completes; but the first
exception other than `FileNotFoundError` terminates the loop regardless
of what follows. -/
theorem slideshow_skip_only_file_not_found :
    (∀ frame rs, slideshow_pass frame (LoadResult.fileNotFound :: rs) = slideshow_pass frame rs)
    ∧ (∀ frame rs, (∀ r ∈ rs, isErrorResult r = false) →
        ∃ f, slideshow_pass frame rs = Except.ok f)
    ∧ (∀ frame pre m post, (∀ r ∈ pre, isErrorResult r = false) →
        slideshow_pass frame (pre ++ LoadResult.otherError m :: post) = Except.error m) := by
  refine ⟨?_, ?_, ?_⟩
  · intro frame rs
    rfl
  · intro frame rs
    induction rs generalizing frame with
    | nil => intro _; exact ⟨frame, rfl⟩
    | cons r rest ih =>
      intro h
      cases r with
      | ok f => exact ih (some f) (fun x hx => h x (List.mem_cons_of_mem _ hx))
      | fileNotFound => exact ih frame (fun x hx => h x (List.mem_cons_of_mem _ hx))
      | otherError m =>
        have := h _ (List.mem_cons_self _ _)
        simp [isErrorResult] at this
  · intro frame pre m post
    induction pre generalizing frame with
    | nil => intro _; rfl
    | cons r rest ih =>
      intro h
      cases r with
      | ok f => exact ih (some f) (fun x hx => h x (List.mem_cons_of_mem _ hx))
      | fileNotFound => exact ih frame (fun x hx => h x (List.mem_cons_of_mem _ hx))
      | otherError m2 =>
        have := h _ (List.mem_cons_self _ _)
        simp [isErrorResult] at this

/-- Witness for `slideshow_skip_only_file_not_found` on concrete load
outcomes. -/
theorem slideshow_skip_only_file_not_found_witness :
    slideshow_pass (some 0) [LoadResult.fileNotFound, LoadResult.ok 7]
        = slideshow_pass (some 0) [LoadResult.ok 7]
    ∧ slideshow_pass (some 0) [LoadResult.ok 7, LoadResult.otherError "corrupt", LoadResult.ok 9]
        = Except.error "corrupt" :=
  ⟨slideshow_skip_only_file_not_found.1 (some 0) [LoadResult.ok 7],
   slideshow_skip_only_file_not_found.2.2 (some 0) [LoadResult.ok 7] "corrupt" [LoadResult.ok 9]
     (by decide)⟩

/-- **C1 counterexample**: `release_trap_protocol` takes no spoken-phrase
argument and unconditionally releases: the claim's mismatch branch ("the
phrase does not match: no state changes, trapped stays true") does not
exist in the code — any invocation of the tool while trapped (in
particular one the dialogue layer makes after a non-matching phrase)
flips `trapped` to false and replaces the slideshow. -/
theorem release_mismatch_changes_state :
    trappedTestState.is_trapped = true
    ∧ (release_trap_protocol trappedTestState).1.is_trapped = false
    ∧ (release_trap_protocol trappedTestState).1.slideshow_task
        ≠ trappedTestState.slideshow_task := by
  decide

set_option maxRecDepth 8192 in
/-- **C1 amended**: every call of `release_trap_protocol` while trapped
(the code checks no phrase; matching the escape word is delegated to the
dialogue layer) sets `trapped := false`, switches the current audio cue to
the looping idle main-hall cue, restarts the idle weyland slideshow, and
returns a fixed release confirmation that does not contain the escape
word "Ripley". -/
theorem release_always_releases (s : CuratorState) (h : s.is_trapped = true) :
    (release_trap_protocol s).1.is_trapped = false
    ∧ (release_trap_protocol s).1.slideshow_task
        = some { id := s.next_id + 1,
                 images := ["assets/weyland-1.png", "assets/weyland-2.png"] }
    ∧ (release_trap_protocol s).1.current_audio_handle = some s.next_id
    ∧ (release_trap_protocol s).1.playing.getLast?
        = some (s.next_id, "assets/main_hall.mp3")
    ∧ (release_trap_protocol s).2.1
        = "Protocol disengaged. My apologies for the... system malfunction. Returning to standard museum operations."
    ∧ containsSub ((release_trap_protocol s).2.1).data ("Ripley".data) = false := by
  have hw : lookupImages "weyland"
      = some ["assets/weyland-1.png", "assets/weyland-2.png"] := by decide
  have hrip : containsSub
      ("Protocol disengaged. My apologies for the... system malfunction. Returning to standard museum operations.".data)
      ("Ripley".data) = false := by decide
  refine ⟨?_, ?_, ?_, ?_, rfl, hrip⟩
  all_goals
  · obtain ⟨tr, task, hnd, pl, nid⟩ := s
    cases hnd with
    | none =>
      simp [release_trap_protocol, stop_current_audio, play_audio,
        start_exhibit_slideshow, hw, List.getLast?_concat]
    | some a =>
      by_cases hb : (pl.any (fun p => p.1 == a)) = true <;>
        simp [release_trap_protocol, stop_current_audio, play_audio,
          start_exhibit_slideshow, hw, hb, List.getLast?_concat]

/-- Witness for `release_always_releases` on a concrete trapped session. -/
theorem release_always_releases_witness :
    trappedTestState.is_trapped = true
    ∧ (release_trap_protocol trappedTestState).1.is_trapped = false :=
  ⟨by decide, (release_always_releases trappedTestState (by decide)).1⟩

/-- **C2 counterexample**: while trapped, `start_exhibit_slideshow` is
neither a no-op nor a denial: on a concrete trapped session it replaces
the slideshow task and returns a confirmation, because the method never
consults the trapped flag. -/
theorem trapped_start_exhibit_not_noop :
    trappedTestState.is_trapped = true
    ∧ (start_exhibit_slideshow trappedTestState "apollo").1.slideshow_task
        ≠ trappedTestState.slideshow_task
    ∧ (start_exhibit_slideshow trappedTestState "apollo").2.1
        = "Starting slideshow for apollo." := by
  decide

/-- **C2 amended**: while trapped, only `stop_slideshow` is trap-guarded
(a denial with no state change and no effects); `start_exhibit_slideshow`
and `request_xenomorph_access` do not consult the trapped flag and behave
exactly as when untrapped, replacing the slideshow and returning their
usual confirmation strings. -/
theorem trap_override_only_stop_slideshow (s : CuratorState) (h : s.is_trapped = true) :
    stop_slideshow s = (s, "I\x27m afraid I can\x27t do that. We are not finished here.", [])
    ∧ (start_exhibit_slideshow s "apollo").1.slideshow_task
        = some { id := s.next_id,
                 images := ["assets/apollo-1.png", "assets/apollo-2.png",
                            "assets/apollo-3.png", "assets/apollo-4.png"] }
    ∧ (start_exhibit_slideshow s "apollo").2.1 = "Starting slideshow for apollo."
    ∧ (request_xenomorph_access s "937").1.slideshow_task
        = some { id := s.next_id, images := (lookupImages "xenomorph").getD [] }
    ∧ (request_xenomorph_access s "937").2.1
        = "Security code accepted. Now displaying GALLERY D - the Xenomorph XX121 specimen." := by
  have hacc : security_code_accepted "937" = true := by decide
  have ha : lookupImages "apollo"
      = some ["assets/apollo-1.png", "assets/apollo-2.png",
              "assets/apollo-3.png", "assets/apollo-4.png"] := by decide
  refine ⟨?_, ?_, ?_, ?_, ?_⟩
  · simp [stop_slideshow, h]
  · simp [start_exhibit_slideshow, ha]
  · simp [start_exhibit_slideshow, ha]
  · simp [request_xenomorph_access, hacc]
  · simp [request_xenomorph_access, hacc]

/-- Witness for `trap_override_only_stop_slideshow` on a concrete trapped
session. -/
theorem trap_override_only_stop_slideshow_witness :
    trappedTestState.is_trapped = true
    ∧ stop_slideshow trappedTestState
        = (trappedTestState, "I\x27m afraid I can\x27t do that. We are not finished here.", []) :=
  ⟨by decide, (trap_override_only_stop_slideshow trappedTestState (by decide)).1⟩

/-- When the tracked handle is live, stopping the current audio removes
exactly that playback from the live set. -/
theorem stop_current_audio_live (t : CuratorState) (m : Nat)
    (hh : t.current_audio_handle = some m)
    (hl : t.playing.any (fun p => p.1 == m) = true) :
    (stop_current_audio t).1.playing = t.playing.filter (fun p => p.1 != m) := by
  obtain ⟨tr, task, hnd, pl, nid⟩ := t
  simp only at hh hl
  subst hh
  simp [stop_current_audio, hl]

/-- **C9**: an accepted security code replaces only the slideshow task:
the trapped flag, the tracked audio handle, and the set of live playbacks
are all unchanged, and the call issues no audio effect. -/
theorem xenomorph_access_frame_effect (s : CuratorState) (code : String)
    (h : security_code_accepted code = true) :
    (request_xenomorph_access s code).1.is_trapped = s.is_trapped
    ∧ (request_xenomorph_access s code).1.current_audio_handle = s.current_audio_handle
    ∧ (request_xenomorph_access s code).1.playing = s.playing
    ∧ (request_xenomorph_access s code).1.slideshow_task
        = some { id := s.next_id, images := (lookupImages "xenomorph").getD [] }
    ∧ ((request_xenomorph_access s code).2.2).all (fun e => !isAudioEffect e) = true := by
  obtain ⟨tr, task, hnd, pl, nid⟩ := s
  cases task <;> refine ⟨?_, ?_, ?_, ?_, ?_⟩ <;>
    simp [request_xenomorph_access, h, isAudioEffect]

/-- Witness for `xenomorph_access_frame_effect` with a concrete accepted
code on a concrete idle session. -/
theorem xenomorph_access_frame_effect_witness :
    security_code_accepted "nine three seven" = true
    ∧ (request_xenomorph_access idleTestState "nine three seven").1.playing
        = idleTestState.playing :=
  ⟨by decide,
   (xenomorph_access_frame_effect idleTestState "nine three seven" (by decide)).2.2.1⟩

/-- **C8**: `initiate_trap_protocol` is idempotent: calling it twice in a
row (from any session with no alert cue already live) leaves the session
trapped with exactly one looping alert cue playing — the second call
stops the first alert cue before starting its own. -/
theorem initiate_trap_idempotent (s : CuratorState)
    (h : ∀ p ∈ s.playing, p.2 ≠ "assets/secret.mp3") :
    (initiate_trap_protocol (initiate_trap_protocol s).1).1.is_trapped = true
    ∧ ((initiate_trap_protocol (initiate_trap_protocol s).1).1.playing.countP
        (fun p => p.2 == "assets/secret.mp3")) = 1 := by
  constructor
  · unfold initiate_trap_protocol play_audio
    simp only
    rw [stop_current_audio_is_trapped]
  · have hQ : ∀ p ∈ (stop_current_audio { s with is_trapped := true }).1.playing,
        p.2 ≠ "assets/secret.mp3" := by
      intro p hp
      exact h p (stop_current_audio_playing_mem { s with is_trapped := true } p hp)
    have hupl : (initiate_trap_protocol s).1.playing
        = (stop_current_audio { s with is_trapped := true }).1.playing
          ++ [((stop_current_audio { s with is_trapped := true }).1.next_id,
               "assets/secret.mp3")] := rfl
    have huh : (initiate_trap_protocol s).1.current_audio_handle
        = some (stop_current_audio { s with is_trapped := true }).1.next_id := rfl
    have hu1h : ({ (initiate_trap_protocol s).1 with is_trapped := true } :
        CuratorState).current_audio_handle
        = some (stop_current_audio { s with is_trapped := true }).1.next_id := huh
    have hu1pl : ({ (initiate_trap_protocol s).1 with is_trapped := true } :
        CuratorState).playing = (initiate_trap_protocol s).1.playing := rfl
    have hlive : ({ (initiate_trap_protocol s).1 with is_trapped := true } :
        CuratorState).playing.any
          (fun p => p.1 == (stop_current_audio { s with is_trapped := true }).1.next_id)
        = true := by
      rw [hu1pl, hupl]
      simp
    have hstop := stop_current_audio_live
      ({ (initiate_trap_protocol s).1 with is_trapped := true })
      ((stop_current_audio { s with is_trapped := true }).1.next_id) hu1h hlive
    have hfin : (initiate_trap_protocol (initiate_trap_protocol s).1).1.playing
        = (stop_current_audio
            { (initiate_trap_protocol s).1 with is_trapped := true }).1.playing
          ++ [((stop_current_audio
                { (initiate_trap_protocol s).1 with is_trapped := true }).1.next_id,
               "assets/secret.mp3")] := rfl
    rw [hfin, hstop, hu1pl, hupl]
    rw [List.countP_append, List.filter_append]
    simp only [List.countP_append]
    have hz1 : ((stop_current_audio { s with is_trapped := true }).1.playing.filter
        (fun p => p.1 != (stop_current_audio { s with is_trapped := true }).1.next_id)).countP
          (fun p => p.2 == "assets/secret.mp3") = 0 := by
      rw [List.countP_eq_zero]
      intro p hp
      have hmem := List.mem_of_mem_filter hp
      have := hQ p hmem
      simpa using this
    have hz2 : (([((stop_current_audio { s with is_trapped := true }).1.next_id,
        "assets/secret.mp3")] : List (Nat × String)).filter
          (fun p => p.1 != (stop_current_audio { s with is_trapped := true }).1.next_id)).countP
          (fun p => p.2 == "assets/secret.mp3") = 0 := by
      simp
    rw [hz1, hz2]
    simp

/-- Witness for `initiate_trap_idempotent` on a concrete idle session. -/
theorem initiate_trap_idempotent_witness :
    (∀ p ∈ idleTestState.playing, p.2 ≠ "assets/secret.mp3")
    ∧ (initiate_trap_protocol (initiate_trap_protocol idleTestState).1).1.is_trapped = true :=
  ⟨by decide, (initiate_trap_idempotent idleTestState (by decide)).1⟩

/-- **C3 counterexample**: the code accepts a fourth literal,
`"ninethreeseven"`, that the claim's predicate omits.  The phrase
"seven nine three seven" normalises to `sevenninethreeseven`, which
contains the literal `ninethreeseven` so the code grants access, yet it
contains none of the claim's three literals and its token
first-occurrences (`seven` at 0, `nine` at 5, `three` at 9) are not in
increasing order, so the claim predicts denial. -/
theorem access_literal_ninethreeseven_gap :
    security_code_accepted "seven nine three seven" = true
    ∧ claim_access_predicate "seven nine three seven" = false := by
  decide

/-- **C3 amended**: access is granted iff the normalised phrase contains
one of the literals "937", "ninethreeseven", "weyland", "perfection", or
contains all of "nine", "three", "seven" with strictly increasing
first-occurrence positions; in particular "three nine seven" (wrong
order, no literal) is denied. -/
theorem access_decision_characterization :
    (∀ code, security_code_accepted code = amended_access_predicate code)
    ∧ security_code_accepted "three nine seven" = false := by
  constructor
  · intro code
    show accepted_of_normalized (normalize_chars code.data) = amended_access_predicate code
    unfold accepted_of_normalized amended_access_predicate normalize_code
    cases h1 : containsSub (normalize_chars code.data) ("937".data) <;>
    cases h2 : containsSub (normalize_chars code.data) ("ninethreeseven".data) <;>
    cases h3 : containsSub (normalize_chars code.data) ("weyland".data) <;>
    cases h4 : containsSub (normalize_chars code.data) ("perfection".data) <;>
    cases h5 : containsSub (normalize_chars code.data) ("nine".data) <;>
    cases h6 : containsSub (normalize_chars code.data) ("three".data) <;>
    cases h7 : containsSub (normalize_chars code.data) ("seven".data) <;>
      simp [h1, h2, h3, h4, h5, h6, h7]
  · decide

/-- Normalisation distributes over list concatenation. -/
theorem normalize_chars_append (a b : List Char) :
    normalize_chars (a ++ b) = normalize_chars a ++ normalize_chars b := by
  unfold normalize_chars removeChar
  simp [List.filter_append]

/-- **C4 counterexample**: the code removes only the ASCII space
character, not all whitespace: `"9\t37"` (a tab inside the literal) stays
`9<tab>37` after the code's normalisation and is denied, whereas the
claimed normalisation (which strips all whitespace) would produce a
string containing the accepted literal `937`. -/
theorem normalization_tab_not_removed :
    security_code_accepted "9\t37" = false
    ∧ containsSub (spec_normalize ("9\t37".data)) ("937".data) = true
    ∧ normalize_code "9\t37" ≠ spec_normalize ("9\t37".data) := by
  decide

/-- **C4 amended**: normalisation lower-cases and removes commas,
hyphens, periods, and space characters (not tabs or newlines).  The
access decision is therefore insensitive to inserting any of those four
separators anywhere in the phrase and to letter case, and accepted
literal forms written with those separators are granted — but a literal
interrupted by a tab is denied. -/
theorem normalization_separator_case_insensitive :
    (∀ cs1 cs2 : List Char, ∀ sep : Char,
      (sep = ',' ∨ sep = '-' ∨ sep = ' ' ∨ sep = '.') →
      accepted_chars (cs1 ++ sep :: cs2) = accepted_chars (cs1 ++ cs2))
    ∧ (∀ r1 r2 : List Char, r1.map Char.toLower = r2.map Char.toLower →
        accepted_chars r1 = accepted_chars r2)
    ∧ security_code_accepted "wEy-LaNd" = true
    ∧ security_code_accepted "9, 3. 7" = true
    ∧ security_code_accepted "9\t37" = false := by
  refine ⟨?_, ?_, by decide, by decide, by decide⟩
  · intro cs1 cs2 sep hsep
    unfold accepted_chars
    have hsepnil : normalize_chars [sep] = [] := by
      rcases hsep with rfl | rfl | rfl | rfl <;> decide
    have hnorm : normalize_chars (cs1 ++ sep :: cs2) = normalize_chars (cs1 ++ cs2) := by
      have h1 : cs1 ++ sep :: cs2 = cs1 ++ ([sep] ++ cs2) := by simp
      rw [h1, normalize_chars_append, normalize_chars_append, hsepnil,
        List.nil_append, ← normalize_chars_append]
    rw [hnorm]
  · intro r1 r2 hmap
    unfold accepted_chars normalize_chars
    rw [hmap]

/-- Witness for `normalization_separator_case_insensitive`: inserting a
hyphen into "937" and changing the case of "weyland" do not change the
access decision. -/
theorem normalization_separator_case_insensitive_witness :
    ('-' = ',' ∨ '-' = '-' ∨ '-' = ' ' ∨ '-' = '.')
    ∧ accepted_chars ("93".data ++ '-' :: "7".data) = accepted_chars ("93".data ++ "7".data)
    ∧ ("WeYlAnD".data).map Char.toLower = ("weyland".data).map Char.toLower
    ∧ accepted_chars ("WeYlAnD".data) = accepted_chars ("weyland".data) :=
  ⟨by decide,
   normalization_separator_case_insensitive.1 "93".data "7".data '-' (by decide),
   by decide,
   normalization_separator_case_insensitive.2.1 "WeYlAnD".data "weyland".data (by decide)⟩

end MuseumCurator
